import Mathlib

/-!
# Fedai: command dispatcher and status state of the Discord bot (`main.go`)

A shallow embedding of `messageCreate`, `openAIChatCompletion` and the loop body of
`updateBotStatus`.  The gateway session and the HTTP transport are external: every call
the handlers make to them is recorded, in program order, in a list of `Effect`s, and the
answer of the completion endpoint is a parameter (`Transport`).

Go strings are modelled by Lean `String`s (Unicode text).  The two command prefixes are
ASCII, so cutting a prefix by bytes and by characters agree on well-formed text.
-/

namespace Fedai

/-! ## Data model -/

/-- The `Config` struct of `main.go`. -/
structure Config where
  DiscordToken : String
  OpenAIKey : String
  OpenAIModel : String
  deriving DecidableEq, Repr

/-- The two mutable package-level variables `gameText` and `isGamePlaying`. -/
structure Globals where
  gameText : String
  isGamePlaying : Bool
  deriving DecidableEq, Repr

/-- Zero values of the package-level variables at process start. -/
def Globals.initial : Globals := ⟨"", false⟩

structure MessageResponse where
  Role : String
  Content : String
  deriving DecidableEq, Repr

structure ChoiceResponse where
  Message : MessageResponse
  deriving DecidableEq, Repr

structure TotalsResponse where
  Choices : Int
  Turns : Int
  deriving DecidableEq, Repr

structure UsageResponse where
  PromptTokens : Int
  CompletionTokens : Int
  TotalTokens : Int
  deriving DecidableEq, Repr

structure ChatCompletionResponse where
  ID : String
  Object : String
  Model : String
  Choices : List ChoiceResponse
  Complete : Bool
  Totals : TotalsResponse
  Created : Int
  Usage : UsageResponse
  Prompt : String
  MaxTokens : Int
  deriving DecidableEq, Repr

/-- One entry of the `"messages"` array of the request body. -/
structure ChatMessage where
  role : String
  content : String
  deriving DecidableEq, Repr

/-- The `data` map built in `openAIChatCompletion`: keys `"model"` and `"messages"`. -/
structure RequestData where
  model : String
  messages : List ChatMessage
  deriving DecidableEq, Repr

/-- The HTTP request handed to `client.Do`. -/
structure HttpRequest where
  method : String
  url : String
  headers : List (String × String)
  body : RequestData
  deriving DecidableEq, Repr

/-- The fields of `discordgo.MessageEmbed` that `messageCreate` sets. -/
structure MessageEmbed where
  Title : String
  Color : Nat
  Description : String
  deriving DecidableEq, Repr

/-- The part of `discordgo.User` the handler reads. -/
structure User where
  ID : String
  deriving DecidableEq, Repr

/-- The part of `discordgo.State` the handler reads. -/
structure SessionState where
  User : User
  deriving DecidableEq, Repr

/-- The part of `discordgo.Session` the handler reads. -/
structure Session where
  State : SessionState
  deriving DecidableEq, Repr

/-- The part of `discordgo.MessageCreate` the handler reads. -/
structure MessageCreate where
  Author : User
  ChannelID : String
  Content : String
  deriving DecidableEq, Repr

/-- Calls made to the outside world, in program order. -/
inductive Effect where
  | channelMessageSend (channelID : String) (content : String)
  | channelMessageSendEmbed (channelID : String) (embed : MessageEmbed)
  | httpDo (req : HttpRequest)
  | logPrintln (line : String)
  | updateGameStatus (idle : Nat) (name : String)
  deriving DecidableEq, Repr

/-- How a handler invocation ends: a normal return, or a Go run-time panic. -/
inductive Outcome where
  | returned
  | panicked
  deriving DecidableEq, Repr

/-- Result of running a handler: the variables afterwards, the calls made, and the ending. -/
structure Run where
  globals : Globals
  effects : List Effect
  outcome : Outcome
  deriving DecidableEq, Repr

/-- What `client.Do` followed by the JSON decoding yields for a request: an error
(network failure, undecodable body) or the decoded response. -/
abbrev Transport := HttpRequest → Except String ChatCompletionResponse

/-! ## `strings.HasPrefix` and `strings.TrimPrefix` -/

/-- Go: `len(s) >= len(prefix) && s[0:len(prefix)] == prefix`. -/
def HasPrefix (s pre : String) : Bool :=
  decide (s.length ≥ pre.length) && (s.data.take pre.length == pre.data)

/-- Go: `if HasPrefix(s, prefix) { return s[len(prefix):] }; return s`. -/
def TrimPrefix (s pre : String) : String :=
  if HasPrefix s pre then ⟨s.data.drop pre.length⟩ else s

/-! ## The program -/

/-- Body of `openAIChatCompletion`: the request it builds and sends, and what it returns.
`json.Marshal` of a map of strings and `http.NewRequest` with this constant method and
URL cannot fail, so the only error returns are those of the transport. -/
def openAIChatCompletion (config : Config) (transport : Transport) (message : String) :
    HttpRequest × Except String ChatCompletionResponse :=
  let url := "https://api.openai.com/v1/chat/completions"
  let data : RequestData :=
    { model := config.OpenAIModel
      messages := [⟨"system", "You are a helpful assistant."⟩, ⟨"user", message⟩] }
  let req : HttpRequest :=
    { method := "POST"
      url := url
      headers := [("Content-Type", "application/json"),
                  ("Authorization", "Bearer " ++ config.OpenAIKey)]
      body := data }
  (req, transport req)

/-- The `!setgame` block of `messageCreate` (lines 95-105). -/
def setgameBlock (m : MessageCreate) (g : Globals) : Globals × List Effect :=
  if HasPrefix m.Content "!setgame" then
    let gameText := TrimPrefix m.Content "!setgame "
    if gameText ≠ "" then
      (⟨gameText, true⟩,
        [Effect.channelMessageSend m.ChannelID ("Oyun metni güncellendi: " ++ gameText)])
    else
      (⟨gameText, false⟩, [Effect.channelMessageSend m.ChannelID "Oyun metni temizlendi."])
  else (g, [])

/-- The `!f` block of `messageCreate` (lines 106-131), run on the variables `g` with the
calls `pre` already made. -/
def completionBlock (config : Config) (transport : Transport) (m : MessageCreate)
    (g : Globals) (pre : List Effect) : Run :=
  if HasPrefix m.Content "!f" then
    let announcement := TrimPrefix m.Content "!f"
    let call := openAIChatCompletion config transport announcement
    match call.2 with
    | Except.error err =>
      ⟨g, pre ++ [Effect.httpDo call.1,
                  Effect.logPrintln ("Yapay zeka yanıtı oluşturulamadı: " ++ err)],
        Outcome.returned⟩
    | Except.ok response =>
      match response.Choices[0]? with
      | none => ⟨g, pre ++ [Effect.httpDo call.1], Outcome.panicked⟩
      | some choice =>
        let answer := choice.Message.Content
        let embed : MessageEmbed :=
          { Title := "Fedai-YapayZeka Destekli Discord Botu:"
            Color := 0x00ff00
            Description := answer }
        ⟨g, pre ++ [Effect.httpDo call.1, Effect.channelMessageSendEmbed m.ChannelID embed],
          Outcome.returned⟩
  else ⟨g, pre, Outcome.returned⟩

/-- The handler `messageCreate(s, m)`. -/
def messageCreate (config : Config) (transport : Transport) (s : Session)
    (m : MessageCreate) (g : Globals) : Run :=
  if m.Author.ID = s.State.User.ID then ⟨g, [], Outcome.returned⟩
  else
    let r := setgameBlock m g
    completionBlock config transport m r.1 r.2

/-- One iteration of the loop started by `updateBotStatus`. -/
def updateBotStatusTick (g : Globals) : Run :=
  if g.isGamePlaying then ⟨g, [Effect.updateGameStatus 0 g.gameText], Outcome.returned⟩
  else ⟨g, [Effect.updateGameStatus 0 ""], Outcome.returned⟩

/-- What can happen to the process after start-up: a message event (with the answer the
completion endpoint would give), or a tick of the status loop. -/
inductive Event where
  | message (transport : Transport) (m : MessageCreate)
  | tick

/-- One event, run to completion. -/
def step (config : Config) (s : Session) (g : Globals) : Event → Run
  | Event.message transport m => messageCreate config transport s m g
  | Event.tick => updateBotStatusTick g

/-- A sequence of events, each run to completion; a panic ends the process. -/
def runEvents (config : Config) (s : Session) : Globals → List Event → Run
  | g, [] => ⟨g, [], Outcome.returned⟩
  | g, e :: es =>
    let r := step config s g e
    match r.outcome with
    | Outcome.panicked => r
    | Outcome.returned =>
      let r2 := runEvents config s r.globals es
      ⟨r2.globals, r.effects ++ r2.effects, r2.outcome⟩

/-! ## Observations on the effect list -/

/-- The text messages sent, as (channel, content). -/
def textSends : List Effect → List (String × String)
  | [] => []
  | Effect.channelMessageSend c t :: es => (c, t) :: textSends es
  | _ :: es => textSends es

/-- The embeds sent, as (channel, embed). -/
def embedSends : List Effect → List (String × MessageEmbed)
  | [] => []
  | Effect.channelMessageSendEmbed c e :: es => (c, e) :: embedSends es
  | _ :: es => embedSends es

/-- The completion requests issued. -/
def completionCalls : List Effect → List HttpRequest
  | [] => []
  | Effect.httpDo r :: es => r :: completionCalls es
  | _ :: es => completionCalls es

/-- The two shapes of the status variables the spec names. -/
def StatusInv (g : Globals) : Prop :=
  (g.isGamePlaying = false ∧ g.gameText = "") ∨ (g.isGamePlaying = true ∧ g.gameText ≠ "")

/-- A text made of whitespace characters only (the empty text included). -/
def whitespaceOnly (t : String) : Bool := t.data.all Char.isWhitespace

/-! ## Sample inputs -/

def sampleConfig : Config := ⟨"tok", "key", "gpt-4"⟩

def sampleSession : Session := ⟨⟨⟨"bot"⟩⟩⟩

def sampleMessage (content : String) : MessageCreate := ⟨⟨"alice"⟩, "chan", content⟩

def sampleResponse (choices : List ChoiceResponse) : ChatCompletionResponse :=
  { ID := "", Object := "", Model := "", Choices := choices, Complete := false,
    Totals := ⟨0, 0⟩, Created := 0, Usage := ⟨0, 0, 0⟩, Prompt := "", MaxTokens := 0 }

def failingTransport : Transport := fun _ => Except.error "dial tcp: timeout"

def okTransport (choices : List ChoiceResponse) : Transport :=
  fun _ => Except.ok (sampleResponse choices)

/-! ## String lemmas -/

theorem length_eq_data (s : String) : s.length = s.data.length := rfl

theorem hasPrefix_iff (s p : String) : HasPrefix s p = true ↔ ∃ t : String, s = p ++ t := by
  constructor
  · intro h
    simp only [HasPrefix, Bool.and_eq_true, decide_eq_true_eq, beq_iff_eq] at h
    refine ⟨⟨s.data.drop p.length⟩, ?_⟩
    apply String.ext
    rw [String.data_append, ← h.2]
    exact (List.take_append_drop _ _).symm
  · rintro ⟨t, rfl⟩
    simp only [HasPrefix, Bool.and_eq_true, decide_eq_true_eq, beq_iff_eq, length_eq_data,
      String.data_append, List.length_append]
    exact ⟨Nat.le_add_right _ _, List.take_left _ _⟩

theorem hasPrefix_append (p t : String) : HasPrefix (p ++ t) p = true :=
  (hasPrefix_iff _ _).2 ⟨t, rfl⟩

theorem trimPrefix_append (p t : String) : TrimPrefix (p ++ t) p = t := by
  unfold TrimPrefix
  rw [hasPrefix_append, if_pos rfl]
  apply String.ext
  simp only [length_eq_data, String.data_append]
  exact List.drop_left _ _

theorem setgame_excludes_f (s : String) (h : HasPrefix s "!setgame" = true) :
    HasPrefix s "!f" = false := by
  obtain ⟨t, rfl⟩ := (hasPrefix_iff _ _).1 h
  have hd : ("!setgame" ++ t).data
      = '!' :: 's' :: 'e' :: 't' :: 'g' :: 'a' :: 'm' :: 'e' :: t.data := by
    rw [String.data_append]; rfl
  have hl : ("!f" : String).length = 2 := rfl
  have hf : ("!f" : String).data = ['!', 'f'] := rfl
  simp only [HasPrefix, hd, hl, hf, List.take_succ_cons, List.take_zero]
  simp

theorem f_excludes_setgame (s : String) (h : HasPrefix s "!f" = true) :
    HasPrefix s "!setgame" = false := by
  cases h2 : HasPrefix s "!setgame"
  · rfl
  · rw [setgame_excludes_f s h2] at h
    exact absurd h (by decide)

theorem hasPrefix_setgame_space (T : String) :
    HasPrefix ("!setgame " ++ T) "!setgame" = true := by
  have : ("!setgame " : String) ++ T = "!setgame" ++ (" " ++ T) := by
    apply String.ext
    simp only [String.data_append]
    rfl
  rw [this]
  exact hasPrefix_append _ _

/-! ## Shape of one handler call -/

theorem messageCreate_self (config : Config) (transport : Transport) (s : Session)
    (m : MessageCreate) (g : Globals) (h : m.Author.ID = s.State.User.ID) :
    messageCreate config transport s m g = ⟨g, [], Outcome.returned⟩ := by
  simp [messageCreate, h]

theorem messageCreate_of_setgame (config : Config) (transport : Transport) (s : Session)
    (m : MessageCreate) (g : Globals) (ha : m.Author.ID ≠ s.State.User.ID)
    (h : HasPrefix m.Content "!setgame" = true) :
    messageCreate config transport s m g
      = ⟨(setgameBlock m g).1, (setgameBlock m g).2, Outcome.returned⟩ := by
  simp [messageCreate, ha, completionBlock, setgame_excludes_f _ h]

theorem setgameBlock_of_not (m : MessageCreate) (g : Globals)
    (h : HasPrefix m.Content "!setgame" = false) : setgameBlock m g = (g, []) := by
  simp [setgameBlock, h]

theorem messageCreate_of_not_setgame (config : Config) (transport : Transport) (s : Session)
    (m : MessageCreate) (g : Globals) (ha : m.Author.ID ≠ s.State.User.ID)
    (h : HasPrefix m.Content "!setgame" = false) :
    messageCreate config transport s m g = completionBlock config transport m g [] := by
  simp [messageCreate, ha, setgameBlock_of_not m g h]

theorem setgameBlock_space (m : MessageCreate) (g : Globals) (T : String)
    (hc : m.Content = "!setgame " ++ T) :
    setgameBlock m g =
      if T ≠ "" then
        (⟨T, true⟩, [Effect.channelMessageSend m.ChannelID ("Oyun metni güncellendi: " ++ T)])
      else (⟨T, false⟩, [Effect.channelMessageSend m.ChannelID "Oyun metni temizlendi."]) := by
  simp only [setgameBlock, hc, hasPrefix_setgame_space, trimPrefix_append, if_true]

theorem completionBlock_globals (config : Config) (transport : Transport) (m : MessageCreate)
    (g : Globals) (pre : List Effect) : (completionBlock config transport m g pre).globals = g := by
  unfold completionBlock
  split
  · dsimp only
    split
    · rfl
    · split <;> rfl
  · rfl

theorem setgameBlock_inv (m : MessageCreate) (g : Globals) (h : StatusInv g) :
    StatusInv (setgameBlock m g).1 := by
  unfold setgameBlock
  split
  · dsimp only
    split
    · next hne => exact Or.inr ⟨rfl, hne⟩
    · next he => exact Or.inl ⟨rfl, not_not.1 he⟩
  · exact h

theorem messageCreate_globals (config : Config) (transport : Transport) (s : Session)
    (m : MessageCreate) (g : Globals) (ha : m.Author.ID ≠ s.State.User.ID) :
    (messageCreate config transport s m g).globals = (setgameBlock m g).1 := by
  simp [messageCreate, ha, completionBlock_globals]

theorem step_inv (config : Config) (s : Session) (g : Globals) (e : Event)
    (h : StatusInv g) : StatusInv (step config s g e).globals := by
  cases e with
  | tick =>
    simp only [step, updateBotStatusTick]
    split <;> exact h
  | message transport m =>
    simp only [step]
    by_cases ha : m.Author.ID = s.State.User.ID
    · rw [messageCreate_self _ _ _ _ _ ha]; exact h
    · rw [messageCreate_globals _ _ _ _ _ ha]; exact setgameBlock_inv m g h

theorem runEvents_inv (config : Config) (s : Session) (events : List Event) :
    ∀ g : Globals, StatusInv g → StatusInv (runEvents config s g events).globals := by
  induction events with
  | nil => intro g h; exact h
  | cons e es ih =>
    intro g h
    have hs := step_inv config s g e h
    simp only [runEvents]
    split
    · exact hs
    · exact ih _ hs

theorem step_change (config : Config) (s : Session) (g : Globals) (e : Event)
    (h : (step config s g e).globals ≠ g) :
    ∃ transport m, e = Event.message transport m ∧ m.Author.ID ≠ s.State.User.ID
      ∧ HasPrefix m.Content "!setgame" = true := by
  cases e with
  | tick =>
    exfalso; apply h
    simp only [step, updateBotStatusTick]
    split <;> rfl
  | message transport m =>
    refine ⟨transport, m, rfl, ?_, ?_⟩
    · intro ha
      apply h
      simp only [step]
      rw [messageCreate_self _ _ _ _ _ ha]
    · by_cases ha : m.Author.ID = s.State.User.ID
      · exfalso; apply h
        simp only [step]
        rw [messageCreate_self _ _ _ _ _ ha]
      · cases hp : HasPrefix m.Content "!setgame"
        · exfalso; apply h
          simp only [step]
          rw [messageCreate_globals _ _ _ _ _ ha, setgameBlock_of_not m g hp]
        · rfl

theorem completionBlock_calls (config : Config) (transport : Transport) (m : MessageCreate)
    (g : Globals) (h : HasPrefix m.Content "!f" = true) :
    completionCalls (completionBlock config transport m g []).effects
      = [(openAIChatCompletion config transport (TrimPrefix m.Content "!f")).1] := by
  unfold completionBlock
  rw [if_pos h]
  dsimp only
  split
  · rfl
  · split <;> rfl

theorem completionBlock_error (config : Config) (transport : Transport) (m : MessageCreate)
    (g : Globals) (err : String) (h : HasPrefix m.Content "!f" = true)
    (he : (openAIChatCompletion config transport (TrimPrefix m.Content "!f")).2
      = Except.error err) :
    completionBlock config transport m g []
      = ⟨g, [Effect.httpDo (openAIChatCompletion config transport (TrimPrefix m.Content "!f")).1,
             Effect.logPrintln ("Yapay zeka yanıtı oluşturulamadı: " ++ err)],
          Outcome.returned⟩ := by
  unfold completionBlock
  rw [if_pos h]
  dsimp only
  rw [he]
  rfl

theorem completionBlock_ok (config : Config) (transport : Transport) (m : MessageCreate)
    (g : Globals) (response : ChatCompletionResponse) (h : HasPrefix m.Content "!f" = true)
    (he : (openAIChatCompletion config transport (TrimPrefix m.Content "!f")).2
      = Except.ok response) :
    completionBlock config transport m g []
      = match response.Choices[0]? with
        | none =>
          ⟨g, [Effect.httpDo (openAIChatCompletion config transport
                (TrimPrefix m.Content "!f")).1], Outcome.panicked⟩
        | some choice =>
          ⟨g, [Effect.httpDo (openAIChatCompletion config transport
                (TrimPrefix m.Content "!f")).1,
               Effect.channelMessageSendEmbed m.ChannelID
                 ⟨"Fedai-YapayZeka Destekli Discord Botu:", 0x00ff00, choice.Message.Content⟩],
            Outcome.returned⟩ := by
  unfold completionBlock
  rw [if_pos h]
  dsimp only
  rw [he]
  dsimp only
  split <;> simp_all

theorem completionBlock_textSends (config : Config) (transport : Transport)
    (m : MessageCreate) (g : Globals) :
    textSends (completionBlock config transport m g []).effects = [] := by
  unfold completionBlock
  split
  · dsimp only
    split
    · rfl
    · split <;> rfl
  · rfl

theorem completionBlock_of_not (config : Config) (transport : Transport) (m : MessageCreate)
    (g : Globals) (pre : List Effect) (h : HasPrefix m.Content "!f" = false) :
    completionBlock config transport m g pre = ⟨g, pre, Outcome.returned⟩ := by
  simp [completionBlock, h]

theorem setgameBlock_sends (m : MessageCreate) (g : Globals)
    (h : HasPrefix m.Content "!setgame" = true) :
    (textSends (setgameBlock m g).2).length = 1 ∧ completionCalls (setgameBlock m g).2 = [] := by
  unfold setgameBlock
  rw [if_pos h]
  dsimp only
  split <;> exact ⟨rfl, rfl⟩

/-- The bare command: the tested prefix `"!setgame"` matches but the trimmed prefix
`"!setgame "` does not, so the whole content becomes the game text. -/
theorem setgame_bare_eval :
    messageCreate sampleConfig failingTransport sampleSession
        (sampleMessage "!setgame") Globals.initial
      = ⟨⟨"!setgame", true⟩,
         [Effect.channelMessageSend "chan" "Oyun metni güncellendi: !setgame"],
         Outcome.returned⟩ := by
  decide

/-! ## The claims -/

/-- C1: a message from another author with content `"!setgame " ++ T` leaves the status
variables at `isGamePlaying = true, gameText = T` when `T` is non-empty, and at
`isGamePlaying = false, gameText = ""` when `T` is empty; the handler returns. -/
theorem setgame_sets_status (config : Config) (transport : Transport) (s : Session)
    (m : MessageCreate) (g : Globals) (T : String)
    (hauthor : m.Author.ID ≠ s.State.User.ID) (hcontent : m.Content = "!setgame " ++ T) :
    (messageCreate config transport s m g).outcome = Outcome.returned ∧
    (T ≠ "" → (messageCreate config transport s m g).globals.isGamePlaying = true ∧
      (messageCreate config transport s m g).globals.gameText = T) ∧
    (T = "" → (messageCreate config transport s m g).globals.isGamePlaying = false ∧
      (messageCreate config transport s m g).globals.gameText = "") := by
  have hp : HasPrefix m.Content "!setgame" = true := by
    rw [hcontent]; exact hasPrefix_setgame_space T
  rw [messageCreate_of_setgame config transport s m g hauthor hp,
    setgameBlock_space m g T hcontent]
  refine ⟨rfl, ?_, ?_⟩
  · intro hT; rw [if_pos hT]; exact ⟨rfl, rfl⟩
  · intro hT; rw [if_neg (not_not.2 hT)]; exact ⟨rfl, hT⟩

theorem setgame_sets_status_witness :
    (sampleMessage "!setgame Among Us").Author.ID ≠ sampleSession.State.User.ID ∧
    (sampleMessage "!setgame Among Us").Content = "!setgame " ++ "Among Us" ∧
    ((messageCreate sampleConfig failingTransport sampleSession
        (sampleMessage "!setgame Among Us") Globals.initial).globals.isGamePlaying = true ∧
     (messageCreate sampleConfig failingTransport sampleSession
        (sampleMessage "!setgame Among Us") Globals.initial).globals.gameText = "Among Us") :=
  ⟨by decide, by decide,
   (setgame_sets_status sampleConfig failingTransport sampleSession
      (sampleMessage "!setgame Among Us") Globals.initial "Among Us"
      (by decide) (by decide)).2.1 (by decide)⟩

/-- C2: a message whose author is the session's own user makes `messageCreate` return at
once: no call of any kind is made (no text message, no embed, no completion request) and
`gameText` and `isGamePlaying` are unchanged, whatever the content. -/
theorem self_message_no_action (config : Config) (transport : Transport) (s : Session)
    (m : MessageCreate) (g : Globals) (hself : m.Author.ID = s.State.User.ID) :
    (messageCreate config transport s m g).effects = [] ∧
    textSends (messageCreate config transport s m g).effects = [] ∧
    embedSends (messageCreate config transport s m g).effects = [] ∧
    completionCalls (messageCreate config transport s m g).effects = [] ∧
    (messageCreate config transport s m g).globals = g ∧
    (messageCreate config transport s m g).outcome = Outcome.returned := by
  rw [messageCreate_self config transport s m g hself]
  exact ⟨rfl, rfl, rfl, rfl, rfl, rfl⟩

theorem self_message_no_action_witness :
    (⟨⟨"bot"⟩, "chan", "!setgame Among Us"⟩ : MessageCreate).Author.ID
      = sampleSession.State.User.ID ∧
    (messageCreate sampleConfig (okTransport []) sampleSession
        ⟨⟨"bot"⟩, "chan", "!setgame Among Us"⟩ Globals.initial).effects = [] ∧
    (messageCreate sampleConfig (okTransport []) sampleSession
        ⟨⟨"bot"⟩, "chan", "!f hello"⟩ ⟨"x", true⟩).globals = ⟨"x", true⟩ :=
  ⟨rfl,
   (self_message_no_action sampleConfig (okTransport []) sampleSession
      ⟨⟨"bot"⟩, "chan", "!setgame Among Us"⟩ Globals.initial rfl).1,
   (self_message_no_action sampleConfig (okTransport []) sampleSession
      ⟨⟨"bot"⟩, "chan", "!f hello"⟩ ⟨"x", true⟩ rfl).2.2.2.2.1⟩

/-- C3: from the initial variables, after any finite sequence of message events (any
author, content and completion answer) and status ticks, each run to completion, the
status variables are either `false, ""` or `true, non-empty`; and an event changes them
only if it is a message from another author whose content starts with `"!setgame"`. -/
theorem status_invariant (config : Config) (s : Session) :
    (∀ events : List Event, StatusInv (runEvents config s Globals.initial events).globals) ∧
    (∀ (g : Globals) (e : Event), (step config s g e).globals ≠ g →
      ∃ transport m, e = Event.message transport m ∧ m.Author.ID ≠ s.State.User.ID ∧
        HasPrefix m.Content "!setgame" = true) :=
  ⟨fun events => runEvents_inv config s events Globals.initial (Or.inl ⟨rfl, rfl⟩),
   fun g e h => step_change config s g e h⟩

theorem status_invariant_witness :
    StatusInv (runEvents sampleConfig sampleSession Globals.initial
      [Event.message failingTransport (sampleMessage "!setgame Among Us"), Event.tick,
       Event.message (okTransport []) (sampleMessage "!foo")]).globals ∧
    (step sampleConfig sampleSession Globals.initial
      (Event.message failingTransport (sampleMessage "!setgame Among Us"))).globals
        ≠ Globals.initial ∧
    (∃ transport m, Event.message failingTransport (sampleMessage "!setgame Among Us")
        = Event.message transport m ∧ m.Author.ID ≠ sampleSession.State.User.ID ∧
        HasPrefix m.Content "!setgame" = true) :=
  ⟨(status_invariant sampleConfig sampleSession).1 _,
   by decide,
   (status_invariant sampleConfig sampleSession).2 Globals.initial
     (Event.message failingTransport (sampleMessage "!setgame Among Us")) (by decide)⟩

/-- C4: for a message from another author whose content starts with `"!f"`, when the
completion call returns a response with at least one choice, the handler sends exactly one
embed, to the message's channel, titled `"Fedai-YapayZeka Destekli Discord Botu:"` and
with the first choice's message content, unchanged, as its description; it sends no text
message, returns, and leaves the status variables alone. -/
theorem completion_reply_embed (config : Config) (transport : Transport) (s : Session)
    (m : MessageCreate) (g : Globals) (response : ChatCompletionResponse)
    (choice : ChoiceResponse) (rest : List ChoiceResponse)
    (hauthor : m.Author.ID ≠ s.State.User.ID) (hstart : HasPrefix m.Content "!f" = true)
    (hok : (openAIChatCompletion config transport (TrimPrefix m.Content "!f")).2
      = Except.ok response)
    (hchoices : response.Choices = choice :: rest) :
    embedSends (messageCreate config transport s m g).effects
      = [(m.ChannelID,
          ⟨"Fedai-YapayZeka Destekli Discord Botu:", 0x00ff00, choice.Message.Content⟩)] ∧
    textSends (messageCreate config transport s m g).effects = [] ∧
    (messageCreate config transport s m g).outcome = Outcome.returned ∧
    (messageCreate config transport s m g).globals = g := by
  rw [messageCreate_of_not_setgame config transport s m g hauthor
        (f_excludes_setgame _ hstart),
    completionBlock_ok config transport m g response hstart hok, hchoices]
  simp only [List.getElem?_cons_zero]
  refine ⟨?_, ?_, ?_⟩ <;> first | rfl | trivial

theorem completion_reply_embed_witness :
    (sampleMessage "!f hello").Author.ID ≠ sampleSession.State.User.ID ∧
    HasPrefix (sampleMessage "!f hello").Content "!f" = true ∧
    embedSends (messageCreate sampleConfig (okTransport [⟨⟨"assistant", "Hi there"⟩⟩])
        sampleSession (sampleMessage "!f hello") Globals.initial).effects
      = [("chan", ⟨"Fedai-YapayZeka Destekli Discord Botu:", 0x00ff00, "Hi there"⟩)] :=
  ⟨by decide, by decide,
   (completion_reply_embed sampleConfig (okTransport [⟨⟨"assistant", "Hi there"⟩⟩])
      sampleSession (sampleMessage "!f hello") Globals.initial
      (sampleResponse [⟨⟨"assistant", "Hi there"⟩⟩]) ⟨⟨"assistant", "Hi there"⟩⟩ []
      (by decide) (by decide) rfl rfl).1⟩

/-- C5 as stated fails: no content starts with both `"!setgame"` and `"!f"`. -/
theorem no_content_matches_both :
    ¬ ∃ content : String,
      HasPrefix content "!setgame" = true ∧ HasPrefix content "!f" = true := by
  rintro ⟨c, h1, h2⟩
  rw [setgame_excludes_f c h1] at h2
  exact absurd h2 (by decide)

/-- C5 amended: the two prefix tests are independent, but they never both succeed; for a
message from another author the status handler runs (one text message) exactly when the
content starts with `"!setgame"`, the completion handler runs (one completion request)
exactly when it starts with `"!f"`, and no call runs both. -/
theorem handlers_mutually_exclusive (config : Config) (transport : Transport) (s : Session)
    (m : MessageCreate) (g : Globals) (hauthor : m.Author.ID ≠ s.State.User.ID) :
    ¬ (HasPrefix m.Content "!setgame" = true ∧ HasPrefix m.Content "!f" = true) ∧
    (textSends (messageCreate config transport s m g).effects).length
      = (if HasPrefix m.Content "!setgame" = true then 1 else 0) ∧
    (completionCalls (messageCreate config transport s m g).effects).length
      = (if HasPrefix m.Content "!f" = true then 1 else 0) ∧
    ¬ (textSends (messageCreate config transport s m g).effects ≠ [] ∧
       completionCalls (messageCreate config transport s m g).effects ≠ []) := by
  cases h1 : HasPrefix m.Content "!setgame"
  · rw [messageCreate_of_not_setgame config transport s m g hauthor h1]
    refine ⟨fun h => absurd h.1 (by decide), ?_, ?_, ?_⟩
    · rw [completionBlock_textSends]; rfl
    · cases h2 : HasPrefix m.Content "!f"
      · rw [completionBlock_of_not config transport m g [] h2]; rfl
      · rw [completionBlock_calls config transport m g h2]; rfl
    · rw [completionBlock_textSends]
      exact fun h => h.1 rfl
  · have h2 := setgame_excludes_f _ h1
    rw [messageCreate_of_setgame config transport s m g hauthor h1, h2]
    refine ⟨fun h => absurd h.2 (by decide), ?_, ?_, ?_⟩
    · exact (setgameBlock_sends m g h1).1
    · show (completionCalls (setgameBlock m g).2).length = _
      rw [(setgameBlock_sends m g h1).2]; rfl
    · show ¬ (_ ∧ completionCalls (setgameBlock m g).2 ≠ [])
      rw [(setgameBlock_sends m g h1).2]
      exact fun h => h.2 rfl

theorem handlers_mutually_exclusive_witness :
    (sampleMessage "!setgame !f").Author.ID ≠ sampleSession.State.User.ID ∧
    (completionCalls (messageCreate sampleConfig (okTransport []) sampleSession
        (sampleMessage "!setgame !f") Globals.initial).effects).length = 0 ∧
    (textSends (messageCreate sampleConfig (okTransport []) sampleSession
        (sampleMessage "!f !setgame x") Globals.initial).effects).length = 0 :=
  ⟨by decide,
   (handlers_mutually_exclusive sampleConfig (okTransport []) sampleSession
      (sampleMessage "!setgame !f") Globals.initial (by decide)).2.2.1,
   (handlers_mutually_exclusive sampleConfig (okTransport []) sampleSession
      (sampleMessage "!f !setgame x") Globals.initial (by decide)).2.1⟩

/-- C6 as stated fails: `"!setgame"` followed by two spaces (whitespace only) does not
clear the status; the second space becomes the game text and the status is enabled. -/
theorem setgame_whitespace_not_cleared :
    whitespaceOnly "  " = true ∧
    (messageCreate sampleConfig failingTransport sampleSession
        (sampleMessage ("!setgame" ++ "  ")) Globals.initial).globals = ⟨" ", true⟩ ∧
    (messageCreate sampleConfig failingTransport sampleSession
        (sampleMessage ("!setgame" ++ "  ")) Globals.initial).globals ≠ ⟨"", false⟩ := by
  decide

/-- C6 amended: for a message from another author whose content is `"!setgame "` (with
the separating space) followed by a text `T` that is empty or whitespace only, the status
variables end as `false, ""` when `T` is empty and, since nothing is trimmed, as
`true, T` when `T` is non-empty. -/
theorem setgame_whitespace_status (config : Config) (transport : Transport) (s : Session)
    (m : MessageCreate) (g : Globals) (T : String)
    (hauthor : m.Author.ID ≠ s.State.User.ID) (hcontent : m.Content = "!setgame " ++ T)
    (_hws : whitespaceOnly T = true) :
    (T = "" → (messageCreate config transport s m g).globals = ⟨"", false⟩) ∧
    (T ≠ "" → (messageCreate config transport s m g).globals = ⟨T, true⟩) := by
  have hp : HasPrefix m.Content "!setgame" = true := by
    rw [hcontent]; exact hasPrefix_setgame_space T
  rw [messageCreate_of_setgame config transport s m g hauthor hp,
    setgameBlock_space m g T hcontent]
  constructor
  · intro hT; rw [if_neg (not_not.2 hT), hT]
  · intro hT; rw [if_pos hT]

theorem setgame_whitespace_status_witness :
    (sampleMessage "!setgame ").Author.ID ≠ sampleSession.State.User.ID ∧
    (sampleMessage "!setgame ").Content = "!setgame " ++ "" ∧
    whitespaceOnly "" = true ∧
    (messageCreate sampleConfig failingTransport sampleSession
        (sampleMessage "!setgame ") ⟨"Among Us", true⟩).globals = ⟨"", false⟩ :=
  ⟨by decide, by decide, by decide,
   (setgame_whitespace_status sampleConfig failingTransport sampleSession
      (sampleMessage "!setgame ") ⟨"Among Us", true⟩ "" (by decide) (by decide)
      (by decide)).1 rfl⟩

/-- C7: for a message from another author whose content starts with `"!f"`, when the
completion call returns an error the handler sends no text message and no embed, leaves
`gameText` and `isGamePlaying` unchanged, and returns after logging the error. -/
theorem completion_error_silent (config : Config) (transport : Transport) (s : Session)
    (m : MessageCreate) (g : Globals) (err : String)
    (hauthor : m.Author.ID ≠ s.State.User.ID) (hstart : HasPrefix m.Content "!f" = true)
    (herr : (openAIChatCompletion config transport (TrimPrefix m.Content "!f")).2
      = Except.error err) :
    textSends (messageCreate config transport s m g).effects = [] ∧
    embedSends (messageCreate config transport s m g).effects = [] ∧
    (messageCreate config transport s m g).globals = g ∧
    (messageCreate config transport s m g).outcome = Outcome.returned ∧
    (messageCreate config transport s m g).effects
      = [Effect.httpDo (openAIChatCompletion config transport (TrimPrefix m.Content "!f")).1,
         Effect.logPrintln ("Yapay zeka yanıtı oluşturulamadı: " ++ err)] := by
  rw [messageCreate_of_not_setgame config transport s m g hauthor
        (f_excludes_setgame _ hstart),
    completionBlock_error config transport m g err hstart herr]
  exact ⟨rfl, rfl, rfl, rfl, rfl⟩

theorem completion_error_silent_witness :
    (sampleMessage "!f hello").Author.ID ≠ sampleSession.State.User.ID ∧
    HasPrefix (sampleMessage "!f hello").Content "!f" = true ∧
    textSends (messageCreate sampleConfig failingTransport sampleSession
        (sampleMessage "!f hello") ⟨"Among Us", true⟩).effects = [] ∧
    embedSends (messageCreate sampleConfig failingTransport sampleSession
        (sampleMessage "!f hello") ⟨"Among Us", true⟩).effects = [] ∧
    (messageCreate sampleConfig failingTransport sampleSession
        (sampleMessage "!f hello") ⟨"Among Us", true⟩).globals = ⟨"Among Us", true⟩ :=
  ⟨by decide, by decide,
   (completion_error_silent sampleConfig failingTransport sampleSession
      (sampleMessage "!f hello") ⟨"Among Us", true⟩ "dial tcp: timeout"
      (by decide) (by decide) rfl).1,
   (completion_error_silent sampleConfig failingTransport sampleSession
      (sampleMessage "!f hello") ⟨"Among Us", true⟩ "dial tcp: timeout"
      (by decide) (by decide) rfl).2.1,
   (completion_error_silent sampleConfig failingTransport sampleSession
      (sampleMessage "!f hello") ⟨"Among Us", true⟩ "dial tcp: timeout"
      (by decide) (by decide) rfl).2.2.1⟩

/-- C8: for a message from another author whose content is `"!f"` followed by any text
`X`, the handler issues exactly one completion request, and its body has the configured
model name and exactly the two messages `system: "You are a helpful assistant."` and
`user: X`, in this order, where `X` is the content without its leading `"!f"`. -/
theorem completion_request_body (config : Config) (transport : Transport) (s : Session)
    (m : MessageCreate) (g : Globals) (X : String)
    (hauthor : m.Author.ID ≠ s.State.User.ID) (hcontent : m.Content = "!f" ++ X) :
    (completionCalls (messageCreate config transport s m g).effects).map (fun r => r.body)
      = [⟨config.OpenAIModel,
          [⟨"system", "You are a helpful assistant."⟩, ⟨"user", X⟩]⟩] := by
  have hp : HasPrefix m.Content "!f" = true := by
    rw [hcontent]; exact hasPrefix_append _ _
  rw [messageCreate_of_not_setgame config transport s m g hauthor (f_excludes_setgame _ hp),
    completionBlock_calls config transport m g hp, hcontent, trimPrefix_append]
  rfl

theorem completion_request_body_witness :
    (sampleMessage "!foo").Author.ID ≠ sampleSession.State.User.ID ∧
    (sampleMessage "!foo").Content = "!f" ++ "oo" ∧
    (completionCalls (messageCreate sampleConfig failingTransport sampleSession
        (sampleMessage "!foo") Globals.initial).effects).map (fun r => r.body)
      = [⟨"gpt-4", [⟨"system", "You are a helpful assistant."⟩, ⟨"user", "oo"⟩]⟩] :=
  ⟨by decide, by decide,
   completion_request_body sampleConfig failingTransport sampleSession
     (sampleMessage "!foo") Globals.initial "oo" (by decide) (by decide)⟩

/-- C9: for a message from another author whose content starts with `"!f"`, when the
completion call returns without error a response with no choices, the handler panics at
`response.Choices[0]`: after the request it sends no embed and no text message and logs
nothing. -/
theorem zero_choices_panics (config : Config) (transport : Transport) (s : Session)
    (m : MessageCreate) (g : Globals) (response : ChatCompletionResponse)
    (hauthor : m.Author.ID ≠ s.State.User.ID) (hstart : HasPrefix m.Content "!f" = true)
    (hok : (openAIChatCompletion config transport (TrimPrefix m.Content "!f")).2
      = Except.ok response)
    (hchoices : response.Choices = []) :
    (messageCreate config transport s m g).outcome = Outcome.panicked ∧
    embedSends (messageCreate config transport s m g).effects = [] ∧
    textSends (messageCreate config transport s m g).effects = [] ∧
    (messageCreate config transport s m g).effects
      = [Effect.httpDo
          (openAIChatCompletion config transport (TrimPrefix m.Content "!f")).1] := by
  rw [messageCreate_of_not_setgame config transport s m g hauthor
        (f_excludes_setgame _ hstart),
    completionBlock_ok config transport m g response hstart hok, hchoices]
  simp only [List.getElem?_nil]
  refine ⟨?_, ?_, ?_, ?_⟩ <;> first | rfl | trivial

theorem zero_choices_panics_witness :
    (sampleMessage "!f hello").Author.ID ≠ sampleSession.State.User.ID ∧
    HasPrefix (sampleMessage "!f hello").Content "!f" = true ∧
    (sampleResponse []).Choices = [] ∧
    (messageCreate sampleConfig (okTransport []) sampleSession
        (sampleMessage "!f hello") Globals.initial).outcome = Outcome.panicked :=
  ⟨by decide, by decide, rfl,
   (zero_choices_panics sampleConfig (okTransport []) sampleSession
      (sampleMessage "!f hello") Globals.initial (sampleResponse [])
      (by decide) (by decide) rfl rfl).1⟩

/-- C10: for a message from another author whose content is `"!setgame " ++ T`, the
handler makes exactly one call: a text message to the message's channel, reading
`"Oyun metni güncellendi: " ++ T` when `T` is non-empty and `"Oyun metni temizlendi."`
when `T` is empty; it sends no embed and issues no completion request. -/
theorem setgame_confirmation (config : Config) (transport : Transport) (s : Session)
    (m : MessageCreate) (g : Globals) (T : String)
    (hauthor : m.Author.ID ≠ s.State.User.ID) (hcontent : m.Content = "!setgame " ++ T) :
    (messageCreate config transport s m g).effects
      = [Effect.channelMessageSend m.ChannelID
          (if T ≠ "" then "Oyun metni güncellendi: " ++ T else "Oyun metni temizlendi.")] ∧
    textSends (messageCreate config transport s m g).effects
      = [(m.ChannelID,
          if T ≠ "" then "Oyun metni güncellendi: " ++ T else "Oyun metni temizlendi.")] ∧
    embedSends (messageCreate config transport s m g).effects = [] ∧
    completionCalls (messageCreate config transport s m g).effects = [] := by
  have hp : HasPrefix m.Content "!setgame" = true := by
    rw [hcontent]; exact hasPrefix_setgame_space T
  rw [messageCreate_of_setgame config transport s m g hauthor hp,
    setgameBlock_space m g T hcontent]
  by_cases hT : T = ""
  · rw [if_neg (not_not.2 hT), if_neg (not_not.2 hT)]
    exact ⟨rfl, rfl, rfl, rfl⟩
  · rw [if_pos hT, if_pos hT]
    exact ⟨rfl, rfl, rfl, rfl⟩

theorem setgame_confirmation_witness :
    (sampleMessage "!setgame Among Us").Author.ID ≠ sampleSession.State.User.ID ∧
    (sampleMessage "!setgame Among Us").Content = "!setgame " ++ "Among Us" ∧
    textSends (messageCreate sampleConfig (okTransport []) sampleSession
        (sampleMessage "!setgame Among Us") Globals.initial).effects
      = [("chan", "Oyun metni güncellendi: Among Us")] :=
  ⟨by decide, by decide,
   (setgame_confirmation sampleConfig (okTransport []) sampleSession
      (sampleMessage "!setgame Among Us") Globals.initial "Among Us"
      (by decide) (by decide)).2.1.trans (by decide)⟩

end Fedai
